import Mathlib

/-!
Verification of the approach-MDP model (projectUtil.py, plotUtil.py).

Shallow embedding conventions:
* An MDP state is the Python 4-tuple `(altitude, speed, config, distance)`;
  altitude, speed and distance are embedded as rationals, the configuration
  index as an integer (the demo uses integer-valued states throughout).
* Real-valued physics (densities, drag, fuel cost) is embedded over `ℝ`;
  Python's `x ** 0.5` on the nonnegative densities is embedded as `Real.sqrt`.
* Python list indexing `l[i]` (always used in-range by the code, guarded by
  short-circuit conditions) is embedded as `qIdx` below; theorems carry the
  corresponding range hypotheses.
-/

/- ISA atmosphere constants and queries (`projectUtil.py`, class `ISA`).
Only the scalar branch of each query is embedded; the `Iterable` branch is
an elementwise map not used by the verified claims. -/
namespace ISA

def p_0 : ℝ := 101325

def T_0 : ℝ := 15 + 273.15

def rho_0 : ℝ := 1.225

def R : ℝ := 8.31432

def M_g : ℝ := 0.0289644

def g : ℝ := 9.80665

def L_b : ℝ := -0.0065

def h_t : ℝ := 11000

/-- `ISA.getT`.  The recursive call `self.getT(self.h_t)` of the Python code
is unfolded once (at `alt = h_t` the `alt > h_t` test is false). -/
noncomputable def getT (alt : ℝ) : ℝ :=
  if alt > h_t then T_0 + L_b * h_t else T_0 + L_b * alt

/-- `ISA.getRho`.  The recursive call `self.getRho(self.h_t)` is unfolded
once, exactly as in `getT`. -/
noncomputable def getRho (alt : ℝ) : ℝ :=
  if alt > h_t then
    (rho_0 * (1 - L_b * h_t / T_0) ^ (1 + g * M_g / R / L_b)) *
      Real.exp (-g * M_g * (alt - h_t) / R / getT alt)
  else
    rho_0 * (1 - L_b * alt / T_0) ^ (1 + g * M_g / R / L_b)

end ISA

/-- A state tuple `(altitude, speed, config, distance)`. -/
abbrev AcState : Type := ℚ × ℚ × ℤ × ℚ

/-- Python in-range list indexing `l[i]` over rational entries (callers of the
embedded code only index in range; out-of-range Python indexing would raise or
wrap, and is excluded by the range hypotheses of the theorems below). -/
def qIdx (l : List ℚ) (i : ℤ) : ℚ := l.getD i.toNat 0

/-- The aircraft parameters passed to `aircraft.__init__` (`projectUtil.py`).
The demo instantiates them with rational values; they are cast into `ℝ`
inside the physics formulas. -/
structure Aircraft where
  mass : ℚ
  eta : ℚ
  idleBurnRate : ℚ
  minSpeed : List ℚ
  maxSpeed : List ℚ

namespace Aircraft

/-- wing span (constant set in `aircraft.__init__`) -/
def b : ℝ := 35

/-- aspect ratio -/
def AR : ℝ := 9.45

/-- parasite drag coefficients by configuration -/
def cDp : List ℝ := [0.0165, 0.018, 0.02, 0.023, 0.03]

/-- Oswald efficiency factor -/
def e : ℝ := 0.8

/-- `aircraft.getcL`: lift coefficient for level flight.  Note the density at
sea level, `getRho 0`, not at the state's altitude. -/
noncomputable def getcL (ac : Aircraft) (s : AcState) : ℝ :=
  ISA.g * (ac.mass : ℝ) / (0.5 * ISA.getRho 0 * (s.2.1 : ℝ) ^ 2 * (b ^ 2 / AR))

/-- `aircraft.getcD`: drag coefficient. -/
noncomputable def getcD (ac : Aircraft) (s : AcState) : ℝ :=
  cDp.getD s.2.2.1.toNat 0 + (ac.getcL s) ^ 2 / (e * AR * Real.pi)

/-- `aircraft.getD`: drag force in N. -/
noncomputable def getD (ac : Aircraft) (s : AcState) : ℝ :=
  0.5 * ISA.getRho 0 * (s.2.1 : ℝ) ^ 2 * ac.getcD s * b ^ 2 / AR

end Aircraft

/-- The `ApproachMDP` construction parameters: the aircraft, the FAF target
`(altitude, speed, config)` and the discretization factor `dDist`
(the demo leaves `dDist` at its default `1`). -/
structure MDPc where
  ac : Aircraft
  FAFstate : ℚ × ℚ × ℤ
  dDist : ℚ

namespace MDPc

/-- energy density of fuel, 43 MJ/kg -/
def kFuel : ℝ := 43e6

/-- distance flown per segment in m -/
def dD (m : MDPc) : ℚ := 1000 * m.dDist

/-- altitude change per climb/descend in m -/
def dA (m : MDPc) : ℚ := 50 * m.dDist

/-- speed change per accel/decel -/
def dS (m : MDPc) : ℚ := 5 * m.dDist

/-- `ApproachMDP.getDecel`: kept at the fixed value `dS` (the physics-based
computation is commented out in the source). -/
def getDecel (m : MDPc) (_s : AcState) : ℚ := m.dS

/-- `ApproachMDP.getDescend`: kept at the fixed value `dA`. -/
def getDescend (m : MDPc) (_s : AcState) : ℚ := m.dA

/-- `ApproachMDP.getCost`: fuel use for one segment.  `maneuverCost` is `0`
in the source (the per-maneuver terms are commented out); the dead local
`cLcD` of the source is omitted (it is computed and never used). -/
noncomputable def getCost (m : MDPc) (s : AcState) (action : String) : ℝ :=
  match s with
  | (alt, EAS, _config, _distance) =>
    let TAS : ℝ := (EAS : ℝ) * Real.sqrt (ISA.getRho 0 / ISA.getRho (alt : ℝ))
    let maneuverCost : ℝ := 0
    let EdD : ℝ := (m.dD : ℝ) * Real.sqrt (ISA.getRho (alt : ℝ) / ISA.getRho 0)
    let altAfter : ℝ :=
      if action = "climb" then (alt : ℝ) + (m.dA : ℝ)
      else if action = "descend" then (alt : ℝ) - (m.getDescend s : ℝ)
      else (alt : ℝ)
    let TASafter : ℝ :=
      if action = "accel" then TAS + (m.dS : ℝ)
      else if action = "decel" then TAS - (m.getDecel s : ℝ)
      else TAS
    let Ereq : ℝ := (m.ac.mass : ℝ) * ISA.g * (altAfter - (alt : ℝ))
      + EdD * m.ac.getD s
      + 0.5 * (TASafter ^ 2 - TAS ^ 2) * (m.ac.mass : ℝ)
    let minFuel : ℝ := (m.ac.idleBurnRate : ℝ) * (m.dD : ℝ) / TAS
    let fuelUsed : ℝ := max (Ereq / (m.ac.eta : ℝ) / kFuel) minFuel
    fuelUsed + maneuverCost

/-- `ApproachMDP.actions`: the list of legal actions of a state. -/
def actions (m : MDPc) (s : AcState) : List String :=
  match s with
  | (altitude, speed, config, _distance) =>
    let acts : List String := ["climb", "level"]
    let acts := if 0 < config ∧ qIdx m.ac.minSpeed (config - 1) ≤ speed
      then acts ++ ["retract"] else acts
    let acts := if config < (m.ac.minSpeed.length : ℤ) - 1 ∧
        speed ≤ qIdx m.ac.maxSpeed (config + 1)
      then acts ++ ["extend"] else acts
    let acts := if m.getDescend s < altitude then acts ++ ["descend"] else acts
    let acts := if qIdx m.ac.minSpeed config + m.getDecel s ≤ speed
      then acts ++ ["decel"] else acts
    let acts := if speed ≤ qIdx m.ac.maxSpeed config - m.dS
      then acts ++ ["accel"] else acts
    acts

/-- Python's `self.FAFstate + (0,)`: the unique terminal state. -/
def terminal (m : MDPc) : AcState := (m.FAFstate.1, m.FAFstate.2.1, m.FAFstate.2.2, 0)

/-- `ApproachMDP.succAndProbReward`: list of `(newState, prob, reward)`. -/
noncomputable def succAndProbReward (m : MDPc) (s : AcState) (action : String) :
    List (AcState × ℚ × ℝ) :=
  match s with
  | (altitude, speed, config, distance) =>
    if s = m.terminal then []
    else if distance ≤ 0 then
      let cost : ℚ := 10000 * (10000000 * (altitude - m.FAFstate.1) ^ 2
          + 10000000 * (speed - m.FAFstate.2.1) ^ 2)
        + 100000000 * |(config : ℚ) - (m.FAFstate.2.2 : ℚ)|
      [(m.terminal, 1, -(cost : ℝ))]
    else
      let reward : ℝ := -(m.getCost s action)
      let distance := distance - m.dD
      if action = "climb" then
        let altitude := altitude - m.dA
        [((altitude, speed, config, distance), 0.8, reward),
         ((altitude + 10, speed, config, distance), 0.1, reward),
         ((altitude - 10, speed, config, distance), 0.1, reward)]
      else if action = "descend" then
        let altitude := altitude - m.getDescend s
        [((altitude, speed, config, distance), 0.8, reward),
         ((altitude + 1, speed, config, distance), 0.1, reward),
         ((altitude - 1, speed, config, distance), 0.1, reward)]
      else if action = "extend" then
        [((altitude, speed, config + 1, distance), 0.95, reward),
         ((altitude, speed, config, distance), 0.05, reward)]
      else if action = "retract" then
        [((altitude, speed, config - 1, distance), 0.95, reward),
         ((altitude, speed, config, distance), 0.05, reward)]
      else if action = "accel" then
        let speed := speed + m.dS
        [((altitude, speed, config, distance), 0.8, reward),
         ((altitude, speed + 1, config, distance), 0.1, reward),
         ((altitude, speed - 1, config, distance), 0.1, reward)]
      else if action = "decel" then
        let speed := speed - m.getDecel s
        [((altitude, speed, config, distance), 0.8, reward),
         ((altitude, speed + 1, config, distance), 0.1, reward),
         ((altitude, speed - 1, config, distance), 0.1, reward)]
      else
        [((altitude, speed, config, distance), 1, reward)]

end MDPc

/-- The 737 instance of `MDPdemo.py`:
`aircraft(55000., 0.33, 600./3600, [90, 80, 70, 65], [150, 115, 100, 90])`. -/
def b737 : Aircraft :=
  { mass := 55000, eta := 0.33, idleBurnRate := 600 / 3600,
    minSpeed := [90, 80, 70, 65], maxSpeed := [150, 115, 100, 90] }

/-- `ApproachMDP(atmosphere, b737, initState, FAFState)` with
`FAFState = (1000, 70, 3)` and the default `dDist = 1`. -/
def mdp737 : MDPc := { ac := b737, FAFstate := (1000, 70, 3), dDist := 1 }

/-- A policy, an external state-to-action lookup (`vi.pi` in `plotUtil.py`).
A missing entry is `none`; stored actions are the non-empty action strings,
so Python's truthiness test `if vi.pi.get(s)` is embedded as `isSome`. -/
abbrev PolicyMap : Type := AcState → Option String

/-- Python passes the possibly-`None` policy value straight into
`succAndProbReward`, where `None` fails every string comparison exactly as an
unrecognized action string does; `"None"` is not a legal action name. -/
def actStr : Option String → String
  | some a => a
  | none => "None"

/-- The trace value appended to the `TAS` list at each visited state
(`plotUtil.py` lines 50 and 91):
`mdpInstance.env.getRho(0) / mdpInstance.env.getRho(state[0]) * state[1]`. -/
noncomputable def recordTAS (alt v : ℚ) : ℝ :=
  ISA.getRho 0 / ISA.getRho (alt : ℝ) * (v : ℝ)

/-- The accumulating trace lists of `plotTrajectory`, plus the fuel counter. -/
structure Traces where
  dist : List ℚ
  alt : List ℚ
  distDec : List ℚ
  altDec : List ℚ
  distAcc : List ℚ
  altAcc : List ℚ
  extensionD : List ℚ
  extensionA : List ℚ
  retractionD : List ℚ
  retractionA : List ℚ
  eas : List ℚ
  tas : List ℝ
  velDist : List ℚ
  fuelUsed : ℝ

def emptyTraces : Traces :=
  { dist := [], alt := [], distDec := [], altDec := [], distAcc := [],
    altAcc := [], extensionD := [], extensionA := [], retractionD := [],
    retractionA := [], eas := [], tas := [], velDist := [], fuelUsed := 0 }

/-- Loop-body recording (`plotUtil.py` lines 48-69): the velocity trace,
the extension/retraction buckets, then the decel/accel/constant-speed
buckets. -/
noncomputable def recordState (s : AcState) (action : Option String) (t : Traces) : Traces :=
  match s with
  | (alt, v, _c, d) =>
    let t := { t with eas := t.eas ++ [v], tas := t.tas ++ [recordTAS alt v],
                      velDist := t.velDist ++ [d / 1000] }
    let t :=
      if action = some "extend" then
        { t with extensionD := t.extensionD ++ [d / 1000],
                 extensionA := t.extensionA ++ [alt] }
      else if action = some "retract" then
        { t with retractionD := t.retractionD ++ [d / 1000],
                 retractionA := t.retractionA ++ [alt] }
      else t
    if action = some "decel" then
      { t with distDec := t.distDec ++ [d / 1000], altDec := t.altDec ++ [alt] }
    else if action = some "accel" then
      { t with distAcc := t.distAcc ++ [d / 1000], altAcc := t.altAcc ++ [alt] }
    else
      { t with dist := t.dist ++ [d / 1000], alt := t.alt ++ [alt] }

/-- The action-change handler (`plotUtil.py` lines 72-82), run when
`prevAction is not action`: it distinguishes only `decel` and `accel`;
every other previous action falls into the constant-speed bucket. -/
def recordChange (s : AcState) (prevAction : Option String) (t : Traces) : Traces :=
  match s with
  | (alt, _v, _c, d) =>
    if prevAction = some "decel" then
      { t with distDec := t.distDec ++ [d / 1000], altDec := t.altDec ++ [alt] }
    else if prevAction = some "accel" then
      { t with distAcc := t.distAcc ++ [d / 1000], altAcc := t.altAcc ++ [alt] }
    else
      { t with dist := t.dist ++ [d / 1000], alt := t.alt ++ [alt] }

/-- The after-loop recording of the final state (`plotUtil.py` lines 88-107):
a single `elif` chain over the last action. -/
noncomputable def recordFinal (s : AcState) (action : Option String) (t : Traces) : Traces :=
  match s with
  | (alt, v, _c, d) =>
    let t := { t with eas := t.eas ++ [v], tas := t.tas ++ [recordTAS alt v],
                      velDist := t.velDist ++ [d / 1000] }
    if action = some "extend" then
      { t with extensionD := t.extensionD ++ [d / 1000],
               extensionA := t.extensionA ++ [alt] }
    else if action = some "retract" then
      { t with retractionD := t.retractionD ++ [d / 1000],
               retractionA := t.retractionA ++ [alt] }
    else if action = some "decel" then
      { t with distDec := t.distDec ++ [d / 1000], altDec := t.altDec ++ [alt] }
    else if action = some "accel" then
      { t with distAcc := t.distAcc ++ [d / 1000], altAcc := t.altAcc ++ [alt] }
    else
      { t with dist := t.dist ++ [d / 1000], alt := t.alt ++ [alt] }

/-- How a run of the embedded rollout loop ended.  `indexError` marks the
Python expression `succAndProbReward(state, action)[0]` applied to an empty
list; `outOfFuel` marks exhaustion of the explicit step budget the embedding
adds to Python's unbounded `while` loop. -/
inductive RunStatus where
  | normal : RunStatus
  | outOfFuel : RunStatus
  | indexError : RunStatus
deriving DecidableEq

structure RunResult where
  tr : Traces
  finalState : AcState
  finalAction : Option String
  status : RunStatus

/-- The rollout loop of `plotTrajectory` (`plotUtil.py` lines 42-107),
embedded with an explicit step budget.  `action` enters holding the value of
line 40, `action = vi.pi.get(state)`; Python's identity test
`prevAction is not action` is embedded as inequality of the values. -/
noncomputable def runLoop (m : MDPc) (pi : PolicyMap) :
    Nat → AcState → Option String → Traces → RunResult
  | 0, s, action, t =>
    if 0 < s.2.2.2 then ⟨t, s, action, RunStatus.outOfFuel⟩
    else ⟨recordFinal s action t, s, action, RunStatus.normal⟩
  | Nat.succ fuel, s, action, t =>
    if 0 < s.2.2.2 then
      let prevAction := action
      let action := pi s
      let t := recordState s action t
      let t := if prevAction ≠ action then recordChange s prevAction t else t
      match m.succAndProbReward s (actStr action) with
      | [] => ⟨t, s, action, RunStatus.indexError⟩
      | (s1, _p, r) :: _ =>
        runLoop m pi fuel s1 action { t with fuelUsed := t.fuelUsed - r }
    else ⟨recordFinal s action t, s, action, RunStatus.normal⟩

/-- Result of the start-state neighborhood search. -/
inductive VicinityResult where
  | found : AcState → VicinityResult
  | failed : VicinityResult
  | noFuel : VicinityResult
deriving DecidableEq

/-- The neighborhood search of `plotTrajectory` (`plotUtil.py` lines 14-36),
embedded with an explicit iteration budget (Python's `while` is unbounded).
Note the source's fourth probe (`speed - i`) carries no `break`: it only
assigns `state`, after which the `i == max(oldState[:2])` check may still
abort with failure before the loop condition sees the assignment. -/
def vicinitySearch (pi : PolicyMap) (oldState : AcState) :
    Nat → ℚ → AcState → VicinityResult
  | 0, _i, state =>
    if (pi state).isSome then VicinityResult.found state else VicinityResult.noFuel
  | Nat.succ fuel, i, state =>
    if (pi state).isSome then VicinityResult.found state
    else
      let i := i + 1
      match oldState with
      | (a, v, c, d) =>
        if (pi (a + i, v, c, d)).isSome then VicinityResult.found (a + i, v, c, d)
        else if (pi (a - i, v, c, d)).isSome then VicinityResult.found (a - i, v, c, d)
        else if (pi (a, v + i, c, d)).isSome then VicinityResult.found (a, v + i, c, d)
        else
          let state := if (pi (a, v - i, c, d)).isSome then (a, v - i, c, d) else state
          if i = max a v then VicinityResult.failed
          else vicinitySearch pi oldState fuel i state

/-- `plotTrajectory` (`plotUtil.py`): resolve the start state (searching the
vicinity when it has no policy entry), then run the rollout loop; `none`
models the `return None` of an exhausted search. -/
noncomputable def plotTrajectory (m : MDPc) (pi : PolicyMap)
    (searchFuel loopFuel : Nat) (state : AcState) : Option RunResult :=
  match vicinitySearch pi state searchFuel 0 state with
  | VicinityResult.found s => some (runLoop m pi loopFuel s (pi s) emptyTraces)
  | _ => none

/-- Sea-level density: `getRho 0 = rho_0`. -/
theorem getRho_zero : ISA.getRho 0 = ISA.rho_0 := by
  rw [ISA.getRho, if_neg (by norm_num [ISA.h_t])]
  rw [show (1 : ℝ) - ISA.L_b * 0 / ISA.T_0 = 1 by ring, Real.one_rpow, mul_one]

/-- The ISA density is positive at every nonnegative altitude. -/
theorem getRho_pos {alt : ℝ} (h : 0 ≤ alt) : 0 < ISA.getRho alt := by
  have hrho0 : (0 : ℝ) < ISA.rho_0 := by norm_num [ISA.rho_0]
  rw [ISA.getRho]
  split_ifs with hgt
  · have hbase : (0 : ℝ) < 1 - ISA.L_b * ISA.h_t / ISA.T_0 := by
      norm_num [ISA.L_b, ISA.h_t, ISA.T_0]
    exact mul_pos (mul_pos hrho0 (Real.rpow_pos_of_pos hbase _)) (Real.exp_pos _)
  · have hbase : (0 : ℝ) < 1 - ISA.L_b * alt / ISA.T_0 := by
      have h1 : ISA.L_b * alt ≤ 0 := by
        have : ISA.L_b ≤ 0 := by norm_num [ISA.L_b]
        exact mul_nonpos_of_nonpos_of_nonneg this h
      have h2 : (0 : ℝ) < ISA.T_0 := by norm_num [ISA.T_0]
      have := div_nonpos_of_nonpos_of_nonneg h1 h2.le
      linarith
    exact mul_pos hrho0 (Real.rpow_pos_of_pos hbase _)

/-- The density at 1000 m lies strictly below the sea-level density. -/
theorem getRho_1000_lt : ISA.getRho 1000 < ISA.getRho 0 := by
  rw [getRho_zero, ISA.getRho, if_neg (by norm_num [ISA.h_t])]
  have hrho0 : (0 : ℝ) < ISA.rho_0 := by norm_num [ISA.rho_0]
  have hbase : (1 : ℝ) < 1 - ISA.L_b * 1000 / ISA.T_0 := by
    norm_num [ISA.L_b, ISA.T_0]
  have hexp : (1 : ℝ) + ISA.g * ISA.M_g / ISA.R / ISA.L_b < 0 := by
    norm_num [ISA.g, ISA.M_g, ISA.R, ISA.L_b]
  have := Real.rpow_lt_one_of_one_lt_of_neg hbase hexp
  calc ISA.rho_0 * (1 - ISA.L_b * 1000 / ISA.T_0) ^ (1 + ISA.g * ISA.M_g / ISA.R / ISA.L_b)
      < ISA.rho_0 * 1 := by
        exact mul_lt_mul_of_pos_left this hrho0
    _ = ISA.rho_0 := mul_one _

/-- C1.  `succAndProbReward` returns the empty outcome list exactly at the
terminal state `FAFstate + (0,)`; and at every state with `distance ≤ 0`
other than the terminal state itself it returns the single outcome
`(terminal, 1, -penalty)`, the penalty being the large quadratic
altitude/speed mismatch term plus the large configuration mismatch term. -/
theorem succAndProbReward_empty_iff_terminal (m : MDPc) (s : AcState) (a : String) :
    (m.succAndProbReward s a = [] ↔ s = m.terminal)
    ∧ (s.2.2.2 ≤ 0 → s ≠ m.terminal →
        m.succAndProbReward s a =
          [(m.terminal, 1,
            -((10000 * (10000000 * (s.1 - m.FAFstate.1) ^ 2
                + 10000000 * (s.2.1 - m.FAFstate.2.1) ^ 2)
              + 100000000 * |(s.2.2.1 : ℚ) - (m.FAFstate.2.2 : ℚ)| : ℚ) : ℝ))]) := by
  obtain ⟨alt, v, c, d⟩ := s
  refine ⟨⟨fun h => ?_, fun h => ?_⟩, fun hd hne => ?_⟩
  · by_contra hne
    rw [MDPc.succAndProbReward] at h
    rw [if_neg hne] at h
    split_ifs at h
  · rw [MDPc.succAndProbReward, if_pos h]
  · rw [MDPc.succAndProbReward, if_neg hne, if_pos hd]

/-- Witness for C1 at the demo MDP: state `(500, 80, 1, 0)` is at distance 0
but is not the terminal state, so the single penalty outcome is returned. -/
theorem succAndProbReward_empty_iff_terminal_witness :
    mdp737.succAndProbReward (500, 80, 1, 0) "level" =
      [(mdp737.terminal, 1,
        -((10000 * (10000000 * ((500 : ℚ) - mdp737.FAFstate.1) ^ 2
            + 10000000 * ((80 : ℚ) - mdp737.FAFstate.2.1) ^ 2)
          + 100000000 * |((1 : ℤ) : ℚ) - (mdp737.FAFstate.2.2 : ℚ)| : ℚ) : ℝ))] :=
  (succAndProbReward_empty_iff_terminal mdp737 (500, 80, 1, 0) "level").2
    (by norm_num) (by decide)

/-- C2.  At every state with positive remaining distance the outcome
probabilities of `succAndProbReward` sum exactly to 1, and every outcome
carries the same reward `-(getCost state action)`. -/
theorem succAndProbReward_probSum_rewardConst (m : MDPc) (s : AcState) (a : String)
    (h : 0 < s.2.2.2) :
    ((m.succAndProbReward s a).map (fun o => o.2.1)).sum = 1
    ∧ ∀ o ∈ m.succAndProbReward s a, o.2.2 = -(m.getCost s a) := by
  obtain ⟨alt, v, c, d⟩ := s
  have hd : (0 : ℚ) < d := h
  have hne : ((alt, v, c, d) : AcState) ≠ m.terminal := by
    intro he
    have h4 := congrArg (fun x : AcState => x.2.2.2) he
    simp only [MDPc.terminal] at h4
    exact absurd h4 (ne_of_gt hd)
  simp only [MDPc.succAndProbReward, if_neg hne, if_neg (not_le.mpr hd)]
  split_ifs <;>
    refine ⟨by norm_num, ?_⟩ <;>
    · intro o ho
      fin_cases ho <;> rfl

/-- Witness for C2 at the demo MDP's start state. -/
theorem succAndProbReward_probSum_rewardConst_witness :
    ((mdp737.succAndProbReward (11000, 105, 0, 250000) "climb").map (fun o => o.2.1)).sum = 1
    ∧ ∀ o ∈ mdp737.succAndProbReward (11000, 105, 0, 250000) "climb",
        o.2.2 = -(mdp737.getCost (11000, 105, 0, 250000) "climb") :=
  succAndProbReward_probSum_rewardConst mdp737 (11000, 105, 0, 250000) "climb" (by norm_num)

/-- Membership in a conditionally extended list (the building step of
`ApproachMDP.actions`). -/
theorem mem_ite_append (P : Prop) [Decidable P] (l : List String) (x a : String) :
    (a ∈ if P then l ++ [x] else l) ↔ a ∈ l ∨ (P ∧ a = x) := by
  split_ifs with h
  · simp [List.mem_append, h]
  · simp [h]

/-- C6.  Characterization of `ApproachMDP.actions`: `climb` and `level` are
always present; each of the other five actions is present exactly under its
guard from the source; and nothing else is ever present. -/
theorem actions_characterization (m : MDPc) (alt v : ℚ) (c : ℤ) (d : ℚ)
    (_hc0 : 0 ≤ c) (_hclen : c < (m.ac.minSpeed.length : ℤ)) :
    ("climb" ∈ m.actions (alt, v, c, d) ∧ "level" ∈ m.actions (alt, v, c, d))
    ∧ ("retract" ∈ m.actions (alt, v, c, d) ↔ 0 < c ∧ qIdx m.ac.minSpeed (c - 1) ≤ v)
    ∧ ("extend" ∈ m.actions (alt, v, c, d) ↔
        c < (m.ac.minSpeed.length : ℤ) - 1 ∧ v ≤ qIdx m.ac.maxSpeed (c + 1))
    ∧ ("descend" ∈ m.actions (alt, v, c, d) ↔ m.getDescend (alt, v, c, d) < alt)
    ∧ ("decel" ∈ m.actions (alt, v, c, d) ↔
        qIdx m.ac.minSpeed c + m.getDecel (alt, v, c, d) ≤ v)
    ∧ ("accel" ∈ m.actions (alt, v, c, d) ↔ v ≤ qIdx m.ac.maxSpeed c - m.dS)
    ∧ ∀ a ∈ m.actions (alt, v, c, d),
        a ∈ (["climb", "level", "retract", "extend", "descend", "decel",
              "accel"] : List String) := by
  refine ⟨⟨?_, ?_⟩, ?_, ?_, ?_, ?_, ?_, ?_⟩
  · simp only [MDPc.actions, mem_ite_append]; simp
  · simp only [MDPc.actions, mem_ite_append]; simp
  · simp only [MDPc.actions, mem_ite_append]; simp
  · simp only [MDPc.actions, mem_ite_append]; simp
  · simp only [MDPc.actions, mem_ite_append]; simp
  · simp only [MDPc.actions, mem_ite_append]; simp
  · simp only [MDPc.actions, mem_ite_append]; simp
  · intro a ha
    simp only [MDPc.actions, mem_ite_append] at ha
    rcases ha with ⟨⟨⟨⟨ha | ⟨_, rfl⟩⟩ | ⟨_, rfl⟩⟩ | ⟨_, rfl⟩⟩ | ⟨_, rfl⟩⟩ | ⟨_, rfl⟩
    · fin_cases ha <;> decide
    all_goals decide

/-- Witness for C6 at the demo aircraft, state `(3000, 90, 1, 5000)`. -/
theorem actions_characterization_witness :
    ("climb" ∈ mdp737.actions (3000, 90, 1, 5000) ∧ "level" ∈ mdp737.actions (3000, 90, 1, 5000))
    ∧ ("retract" ∈ mdp737.actions (3000, 90, 1, 5000) ↔
        0 < (1 : ℤ) ∧ qIdx mdp737.ac.minSpeed (1 - 1) ≤ 90)
    ∧ ("extend" ∈ mdp737.actions (3000, 90, 1, 5000) ↔
        (1 : ℤ) < (mdp737.ac.minSpeed.length : ℤ) - 1 ∧ 90 ≤ qIdx mdp737.ac.maxSpeed (1 + 1))
    ∧ ("descend" ∈ mdp737.actions (3000, 90, 1, 5000) ↔
        mdp737.getDescend (3000, 90, 1, 5000) < 3000)
    ∧ ("decel" ∈ mdp737.actions (3000, 90, 1, 5000) ↔
        qIdx mdp737.ac.minSpeed 1 + mdp737.getDecel (3000, 90, 1, 5000) ≤ 90)
    ∧ ("accel" ∈ mdp737.actions (3000, 90, 1, 5000) ↔ 90 ≤ qIdx mdp737.ac.maxSpeed 1 - mdp737.dS)
    ∧ ∀ a ∈ mdp737.actions (3000, 90, 1, 5000),
        a ∈ (["climb", "level", "retract", "extend", "descend", "decel",
              "accel"] : List String) :=
  actions_characterization mdp737 3000 90 1 5000 (by decide) (by decide)

/-- C7.  `getcL` equals `g·mass / (0.5·ρ(0)·speed²·(span²/AR))` — with the
sea-level density `getRho 0` — and is therefore independent of the state's
altitude (and of its distance and configuration). -/
theorem getcL_sea_level_density (ac : Aircraft) (s : AcState) (_h : s.2.1 ≠ 0) :
    ac.getcL s =
      ISA.g * (ac.mass : ℝ) /
        (0.5 * ISA.getRho 0 * (s.2.1 : ℝ) ^ 2 * (Aircraft.b ^ 2 / Aircraft.AR))
    ∧ ∀ alt1 : ℚ, ∀ c1 : ℤ, ∀ d1 : ℚ, ac.getcL (alt1, s.2.1, c1, d1) = ac.getcL s :=
  ⟨rfl, fun _ _ _ => rfl⟩

/-- Witness for C7 at the demo aircraft and a state with nonzero speed. -/
theorem getcL_sea_level_density_witness :
    b737.getcL (1000, 70, 0, 5000) =
      ISA.g * (b737.mass : ℝ) /
        (0.5 * ISA.getRho 0 * ((70 : ℚ) : ℝ) ^ 2 * (Aircraft.b ^ 2 / Aircraft.AR))
    ∧ ∀ alt1 : ℚ, ∀ c1 : ℤ, ∀ d1 : ℚ,
        b737.getcL (alt1, 70, c1, d1) = b737.getcL (1000, 70, 0, 5000) :=
  getcL_sea_level_density b737 (1000, 70, 0, 5000) (by norm_num)

/-- The cost model as worded by the specification (§4.3, claim C4): a single
`max` of the required-energy fuel and the idle floor, with
`TAS = v·sqrt(ρ(0)/ρ(alt))`, `EdD = stepDistance·sqrt(ρ(alt)/ρ(0))`,
`altitudeAfter`/`TASafter` derived from the action, and
`Ereq = mass·g·(altitudeAfter − alt) + EdD·Drag(state) +
0.5·mass·(TASafter² − TAS²)`. -/
noncomputable def getCost_spec (m : MDPc) (s : AcState) (action : String) : ℝ :=
  let TAS : ℝ := (s.2.1 : ℝ) * Real.sqrt (ISA.getRho 0 / ISA.getRho (s.1 : ℝ))
  let TASafter : ℝ :=
    if action = "accel" then TAS + (m.dS : ℝ)
    else if action = "decel" then TAS - (m.dS : ℝ)
    else TAS
  let altAfter : ℝ :=
    if action = "climb" then (s.1 : ℝ) + (m.dA : ℝ)
    else if action = "descend" then (s.1 : ℝ) - (m.dA : ℝ)
    else (s.1 : ℝ)
  let EdD : ℝ := (m.dD : ℝ) * Real.sqrt (ISA.getRho (s.1 : ℝ) / ISA.getRho 0)
  let Ereq : ℝ := (m.ac.mass : ℝ) * ISA.g * (altAfter - (s.1 : ℝ))
    + EdD * m.ac.getD s + 0.5 * (m.ac.mass : ℝ) * (TASafter ^ 2 - TAS ^ 2)
  max (Ereq / (m.ac.eta : ℝ) / MDPc.kFuel)
    ((m.ac.idleBurnRate : ℝ) * (m.dD : ℝ) / TAS)

/-- C4.  `getCost` computes exactly the specification's
`max(Ereq/η/kFuel, idleBurnRate·dD/TAS)`, is never below the idle floor, and
is nonnegative (given nonnegative altitude, positive speed, and the
physically meaningful nonnegative idle burn rate and step factor). -/
theorem getCost_formula_and_idle_floor (m : MDPc) (s : AcState) (a : String)
    (halt : 0 ≤ s.1) (hv : 0 < s.2.1) (hbr : 0 ≤ m.ac.idleBurnRate)
    (hdd : 0 ≤ m.dDist) (_hc0 : 0 ≤ s.2.2.1) (_hc5 : s.2.2.1 < 5) :
    m.getCost s a = getCost_spec m s a
    ∧ (m.ac.idleBurnRate : ℝ) * (m.dD : ℝ) /
        ((s.2.1 : ℝ) * Real.sqrt (ISA.getRho 0 / ISA.getRho (s.1 : ℝ))) ≤ m.getCost s a
    ∧ 0 ≤ m.getCost s a := by
  obtain ⟨alt, v, c, d⟩ := s
  have hTAS : (0 : ℝ) ≤ (v : ℝ) * Real.sqrt (ISA.getRho 0 / ISA.getRho (alt : ℝ)) := by
    have hv1 : (0 : ℝ) ≤ (v : ℝ) := by exact_mod_cast hv.le
    exact mul_nonneg hv1 (Real.sqrt_nonneg _)
  have hdD : (0 : ℝ) ≤ (m.dD : ℝ) := by
    have h1 : (0 : ℚ) ≤ m.dD := by
      rw [MDPc.dD]
      nlinarith
    exact_mod_cast h1
  have hbr1 : (0 : ℝ) ≤ (m.ac.idleBurnRate : ℝ) := by exact_mod_cast hbr
  have hfloor : (0 : ℝ) ≤ (m.ac.idleBurnRate : ℝ) * (m.dD : ℝ) /
      ((v : ℝ) * Real.sqrt (ISA.getRho 0 / ISA.getRho (alt : ℝ))) :=
    div_nonneg (mul_nonneg hbr1 hdD) hTAS
  refine ⟨?_, ?_, ?_⟩
  · simp only [MDPc.getCost, getCost_spec, MDPc.getDescend, MDPc.getDecel]
    rw [add_zero]
    congr 1
    ring
  · simp only [MDPc.getCost, MDPc.getDecel, MDPc.getDescend]
    rw [add_zero]
    exact le_max_right _ _
  · simp only [MDPc.getCost, MDPc.getDecel, MDPc.getDescend]
    rw [add_zero]
    exact le_trans hfloor (le_max_right _ _)

/-- Witness for C4 at the demo MDP's start state and the `climb` action. -/
theorem getCost_formula_and_idle_floor_witness :
    mdp737.getCost (11000, 105, 0, 250000) "climb" =
      getCost_spec mdp737 (11000, 105, 0, 250000) "climb"
    ∧ (mdp737.ac.idleBurnRate : ℝ) * (mdp737.dD : ℝ) /
        (((105 : ℚ) : ℝ) * Real.sqrt (ISA.getRho 0 / ISA.getRho ((11000 : ℚ) : ℝ))) ≤
        mdp737.getCost (11000, 105, 0, 250000) "climb"
    ∧ 0 ≤ mdp737.getCost (11000, 105, 0, 250000) "climb" :=
  getCost_formula_and_idle_floor mdp737 (11000, 105, 0, 250000) "climb"
    (by norm_num) (by norm_num) (by norm_num [b737, mdp737])
    (by norm_num [mdp737]) (by decide) (by decide)

/-- C5.  The velocity-profile trace records `ρ(0)/ρ(alt) · v` (no square
root) at each visited state, and at altitude 1000 m, speed 70 m/s this
differs from the specified true airspeed `v·sqrt(ρ(0)/ρ(alt))`: the code's
line `TAS.append(env.getRho(0) / env.getRho(state[0]) * state[1])` omits the
square root that the model's own `getCost` applies. -/
theorem recordedTAS_missing_sqrt :
    (recordState (1000, 70, 0, 2000) (some "level") emptyTraces).tas = [recordTAS 1000 70]
    ∧ recordTAS 1000 70 ≠
        ((70 : ℚ) : ℝ) * Real.sqrt (ISA.getRho 0 / ISA.getRho ((1000 : ℚ) : ℝ)) := by
  constructor
  · rfl
  · have hcast : (((1000 : ℚ) : ℝ)) = (1000 : ℝ) := by norm_cast
    rw [recordTAS, hcast]
    have hpos : (0 : ℝ) < ISA.getRho 1000 := getRho_pos (by norm_num)
    have hr : 1 < ISA.getRho 0 / ISA.getRho 1000 :=
      (one_lt_div hpos).mpr getRho_1000_lt
    have hrpos : (0 : ℝ) < ISA.getRho 0 / ISA.getRho 1000 := lt_trans one_pos hr
    have hsq : Real.sqrt (ISA.getRho 0 / ISA.getRho 1000) <
        ISA.getRho 0 / ISA.getRho 1000 := by
      rw [Real.sqrt_lt' hrpos]
      nlinarith
    have h70 : (((70 : ℚ) : ℝ)) = (70 : ℝ) := by norm_cast
    rw [h70]
    have : (70 : ℝ) * Real.sqrt (ISA.getRho 0 / ISA.getRho 1000) <
        ISA.getRho 0 / ISA.getRho 1000 * 70 := by nlinarith
    exact (ne_of_gt this)

/-- At positive remaining distance, `succAndProbReward` is nonempty and every
outcome decrements the distance by exactly `dD` and carries the reward
`-(getCost state action)` (shared workhorse for C3 and C10). -/
theorem succ_nonempty_dist_reward (m : MDPc) (s : AcState) (a : String)
    (h : 0 < s.2.2.2) :
    m.succAndProbReward s a ≠ []
    ∧ ∀ o ∈ m.succAndProbReward s a,
        o.1.2.2.2 = s.2.2.2 - m.dD ∧ o.2.2 = -(m.getCost s a) := by
  obtain ⟨alt, v, c, d⟩ := s
  have hd : (0 : ℚ) < d := h
  have hne : ((alt, v, c, d) : AcState) ≠ m.terminal := by
    intro he
    have h4 := congrArg (fun x : AcState => x.2.2.2) he
    simp only [MDPc.terminal] at h4
    exact absurd h4 (ne_of_gt hd)
  simp only [MDPc.succAndProbReward, if_neg hne, if_neg (not_le.mpr hd)]
  split_ifs <;>
    refine ⟨by simp, ?_⟩ <;>
    · intro o ho
      fin_cases ho <;> exact ⟨rfl, rfl⟩

/-- The rollout loop never runs out of a fuel budget covering
`distance / dD` steps: each iteration decrements the distance by `dD`. -/
theorem runLoop_no_outOfFuel (m : MDPc) (pi : PolicyMap) (_hdD : 0 < m.dD) :
    ∀ (n : Nat) (s : AcState) (act : Option String) (t : Traces),
      s.2.2.2 ≤ (n : ℚ) * m.dD →
      (runLoop m pi n s act t).status ≠ RunStatus.outOfFuel := by
  intro n
  induction n with
  | zero =>
    intro s act t hle
    have hneg : ¬ (0 < s.2.2.2) := by
      push_neg
      simpa using hle
    simp only [runLoop, if_neg hneg]
    simp
  | succ k ih =>
    intro s act t hle
    by_cases hpos : 0 < s.2.2.2
    · simp only [runLoop, if_pos hpos]
      cases hsucc : m.succAndProbReward s (actStr (pi s)) with
      | nil => simp
      | cons o rest =>
        obtain ⟨s1, p, r⟩ := o
        have hmem : ((s1, p, r) : AcState × ℚ × ℝ) ∈
            m.succAndProbReward s (actStr (pi s)) := by
          rw [hsucc]; exact List.mem_cons_self _ _
        have hdist :=
          ((succ_nonempty_dist_reward m s (actStr (pi s)) hpos).2 _ hmem).1
        apply ih
        rw [hdist]
        have hle1 : s.2.2.2 ≤ ((k : ℚ) + 1) * m.dD := by push_cast at hle; linarith
        linarith
    · simp only [runLoop, if_neg hpos]
      simp

/-- C3.  Every successor returned at positive distance has distance exactly
`dD` less than the input state, whatever the action; consequently the rollout
loop of `plotTrajectory` needs at most `⌈distance / dD⌉` iterations — run
with that step budget it never exhausts it. -/
theorem distance_decrement_and_rollout_bound :
    (∀ (m : MDPc) (s : AcState) (a : String), 0 < s.2.2.2 →
        ∀ o ∈ m.succAndProbReward s a, o.1.2.2.2 = s.2.2.2 - m.dD)
    ∧ (∀ (m : MDPc) (pi : PolicyMap) (s : AcState) (act : Option String) (t : Traces),
        0 < m.dDist →
        (runLoop m pi (⌈s.2.2.2 / m.dD⌉.toNat) s act t).status ≠ RunStatus.outOfFuel) := by
  constructor
  · intro m s a h o ho
    exact ((succ_nonempty_dist_reward m s a h).2 o ho).1
  · intro m pi s act t hdd
    have hdD : (0 : ℚ) < m.dD := by
      rw [MDPc.dD]
      nlinarith
    apply runLoop_no_outOfFuel m pi hdD
    rcases le_or_lt s.2.2.2 0 with hle | hpos
    · have h0 : (0 : ℚ) ≤ (⌈s.2.2.2 / m.dD⌉.toNat : ℚ) * m.dD :=
        mul_nonneg (by positivity) hdD.le
      linarith
    · have h1 : s.2.2.2 / m.dD ≤ (⌈s.2.2.2 / m.dD⌉ : ℚ) := Int.le_ceil _
      have h2 : (0 : ℤ) ≤ ⌈s.2.2.2 / m.dD⌉ := by
        have hq : (0 : ℚ) ≤ s.2.2.2 / m.dD := (div_pos hpos hdD).le
        exact Int.ceil_nonneg hq
      rw [div_le_iff₀ hdD] at h1
      have h3 : ((⌈s.2.2.2 / m.dD⌉.toNat : ℤ) : ℚ) = ((⌈s.2.2.2 / m.dD⌉ : ℤ) : ℚ) := by
        rw [Int.toNat_of_nonneg h2]
      push_cast at h3
      rw [h3]
      exact h1

/-- Witness for C3 at the demo MDP. -/
theorem distance_decrement_and_rollout_bound_witness :
    (∀ o ∈ mdp737.succAndProbReward (11000, 105, 0, 250000) "descend",
        o.1.2.2.2 = (250000 : ℚ) - mdp737.dD)
    ∧ (runLoop mdp737 (fun _ => none) (⌈(250000 : ℚ) / mdp737.dD⌉.toNat)
        (11000, 105, 0, 250000) none emptyTraces).status ≠ RunStatus.outOfFuel :=
  ⟨distance_decrement_and_rollout_bound.1 mdp737 (11000, 105, 0, 250000) "descend"
      (by norm_num),
   distance_decrement_and_rollout_bound.2 mdp737 (fun _ => none)
      (11000, 105, 0, 250000) none emptyTraces (by norm_num [mdp737])⟩

/-- C10.  Implicit contract of the rollout: the loop guard `distance > 0`
keeps every `succAndProbReward` call away from the empty terminal result and
from the overshoot branch (all outcomes carry the regular `dD` decrement and
the regular reward), so unpacking `[0]` always succeeds — the embedded loop
can never reach the `indexError` outcome. -/
theorem rollout_never_unpacks_empty :
    (∀ (m : MDPc) (s : AcState) (a : String), 0 < s.2.2.2 →
        m.succAndProbReward s a ≠ []
        ∧ ∀ o ∈ m.succAndProbReward s a,
            o.1.2.2.2 = s.2.2.2 - m.dD ∧ o.2.2 = -(m.getCost s a))
    ∧ ∀ (m : MDPc) (pi : PolicyMap) (n : Nat) (s : AcState) (act : Option String)
        (t : Traces), (runLoop m pi n s act t).status ≠ RunStatus.indexError := by
  refine ⟨fun m s a h => succ_nonempty_dist_reward m s a h, ?_⟩
  intro m pi n
  induction n with
  | zero =>
    intro s act t
    simp only [runLoop]
    split_ifs <;> simp
  | succ k ih =>
    intro s act t
    by_cases hpos : 0 < s.2.2.2
    · simp only [runLoop, if_pos hpos]
      cases hsucc : m.succAndProbReward s (actStr (pi s)) with
      | nil => exact absurd hsucc (succ_nonempty_dist_reward m s _ hpos).1
      | cons o rest =>
        obtain ⟨s1, p, r⟩ := o
        exact ih s1 (pi s) _
    · simp only [runLoop, if_neg hpos]
      simp

/-- Witness for C10. -/
theorem rollout_never_unpacks_empty_witness :
    (mdp737.succAndProbReward (11000, 105, 0, 250000) "level" ≠ []
      ∧ ∀ o ∈ mdp737.succAndProbReward (11000, 105, 0, 250000) "level",
          o.1.2.2.2 = (250000 : ℚ) - mdp737.dD
          ∧ o.2.2 = -(mdp737.getCost (11000, 105, 0, 250000) "level"))
    ∧ (runLoop mdp737 (fun _ => none) 3 (11000, 105, 0, 2000) none emptyTraces).status
        ≠ RunStatus.indexError :=
  ⟨rollout_never_unpacks_empty.1 mdp737 (11000, 105, 0, 250000) "level" (by norm_num),
   rollout_never_unpacks_empty.2 mdp737 (fun _ => none) 3 (11000, 105, 0, 2000) none
     emptyTraces⟩

/-- A policy populated only at `(2, 0, 0, 0)`: the entry sits at a speed
perturbation of exactly `max(2, 3) = 3` below the query `(2, 3, 0, 0)`. -/
def piSpeedEdge : PolicyMap := fun s => if s = (2, 0, 0, 0) then some "level" else none

/-- A policy populated only at `(1000, 70, 0, 0)` (the spec's neighborhood
search example). -/
def piAlt1000 : PolicyMap := fun s => if s = (1000, 70, 0, 0) then some "level" else none

/-- C8.  The neighborhood search of the rollout: the `speed − i` probe of the
source carries no `break`, so when the only policy entry is first found by
that probe at exactly `i = max(altitude, speed)` the search still reports
failure — here the query `(2, 3, 0, 0)` against a policy whose only entry is
`(2, 0, 0, 0)` fails even though that entry is reached at `i = 3`.  The
spec's own example is also checked: the query `(1001, 70, 0, 0)` against a
policy populated only at `(1000, 70, 0, 0)` resolves to that state via an
altitude perturbation of 1. -/
theorem vicinitySearch_missing_break :
    vicinitySearch piSpeedEdge (2, 3, 0, 0) 10 0 (2, 3, 0, 0) = VicinityResult.failed
    ∧ piSpeedEdge (2, 3 - 3, 0, 0) = some "level"
    ∧ vicinitySearch piAlt1000 (1001, 70, 0, 0) 10 0 (1001, 70, 0, 0) =
        VicinityResult.found (1000, 70, 0, 0)
    ∧ plotTrajectory mdp737 piSpeedEdge 10 5 (2, 3, 0, 0) = none := by
  refine ⟨by norm_num [vicinitySearch, piSpeedEdge],
    by norm_num [piSpeedEdge],
    by norm_num [vicinitySearch, piAlt1000], ?_⟩
  rw [plotTrajectory]
  rw [show vicinitySearch piSpeedEdge (2, 3, 0, 0) 10 0 (2, 3, 0, 0) =
      VicinityResult.failed from by norm_num [vicinitySearch, piSpeedEdge]]

/-- A policy driving a two-step trajectory whose action changes from
`extend` to `level` between the steps. -/
def piExtendLevel : PolicyMap := fun s =>
  if s = (1000, 70, 0, 2000) then some "extend"
  else if s = (1000, 70, 1, 1000) then some "level" else none

/-- A policy driving the spec's two-step `level` → `decel` example. -/
def piLevelDecel : PolicyMap := fun s =>
  if s = (1000, 70, 0, 2000) then some "level"
  else if s = (1000, 70, 0, 1000) then some "decel" else none

set_option maxHeartbeats 1600000 in
/-- Counterexample to C9 as stated.  In the two-step run driven by
`piExtendLevel` the action changes from `extend` to `level` at the state
`(1000, 70, 1, 1000)` (distance 1 km), yet that state is never appended to
the previous action's bucket (`extensionD` stays `[2]`): the change handler
distinguishes only `decel` and `accel` and files every other previous action
under the constant-speed bucket (`dist` receives the boundary entry twice). -/
theorem bucket_change_counterexample :
    piExtendLevel (1000, 70, 0, 2000) = some "extend"
    ∧ piExtendLevel (1000, 70, 1, 1000) = some "level"
    ∧ (runLoop mdp737 piExtendLevel 5 (1000, 70, 0, 2000)
        (piExtendLevel (1000, 70, 0, 2000)) emptyTraces).tr.dist = [2, 1, 1, 0]
    ∧ (runLoop mdp737 piExtendLevel 5 (1000, 70, 0, 2000)
        (piExtendLevel (1000, 70, 0, 2000)) emptyTraces).tr.extensionD = [2]
    ∧ ¬ ((1 : ℚ) ∈ (runLoop mdp737 piExtendLevel 5 (1000, 70, 0, 2000)
        (piExtendLevel (1000, 70, 0, 2000)) emptyTraces).tr.extensionD) := by
  refine ⟨by norm_num [piExtendLevel], by norm_num [piExtendLevel], ?_, ?_, ?_⟩ <;>
    norm_num +decide [runLoop, recordState, recordChange, recordFinal, actStr,
      MDPc.succAndProbReward, MDPc.terminal, MDPc.dD, MDPc.dA, MDPc.dS,
      MDPc.getDecel, MDPc.getDescend, piExtendLevel, mdp737, b737, emptyTraces]

set_option maxHeartbeats 1600000 in
/-- C9, amended.  At every visited state the loop-body recording
(`recordState`) files the state under the *current* (new) action's bucket —
`distDec`/`altDec` for `decel`, `distAcc`/`altAcc` for `accel`,
`extensionD`/`extensionA` for `extend`, `retractionD`/`retractionA` for
`retract` (the latter two also mirrored into the constant-speed bucket by the
second chain), and the constant-speed bucket `dist`/`alt` for every other
action — so on an action change the boundary state always reaches the new
action's bucket.  The extra record of the change handler (`recordChange`)
reaches the *previous* action's bucket only when that action is `decel` or
`accel`; any other previous action (including `extend` and `retract`) has it
filed in the constant-speed bucket.  In particular the spec's `level` →
`decel` example holds as stated: the boundary state (distance 1 km) lands in
both the `level` and the `decel` buckets. -/
theorem bucket_change_amended :
    (∀ (s : AcState) (a : Option String) (t : Traces),
        a ≠ some "decel" → a ≠ some "accel" → a ≠ some "extend" → a ≠ some "retract" →
        (recordState s a t).dist = t.dist ++ [s.2.2.2 / 1000]
        ∧ (recordState s a t).alt = t.alt ++ [s.1])
    ∧ (∀ (s : AcState) (t : Traces),
        (recordState s (some "decel") t).distDec = t.distDec ++ [s.2.2.2 / 1000]
        ∧ (recordState s (some "decel") t).altDec = t.altDec ++ [s.1])
    ∧ (∀ (s : AcState) (t : Traces),
        (recordState s (some "accel") t).distAcc = t.distAcc ++ [s.2.2.2 / 1000]
        ∧ (recordState s (some "accel") t).altAcc = t.altAcc ++ [s.1])
    ∧ (∀ (s : AcState) (t : Traces),
        (recordState s (some "extend") t).extensionD = t.extensionD ++ [s.2.2.2 / 1000]
        ∧ (recordState s (some "extend") t).extensionA = t.extensionA ++ [s.1]
        ∧ (recordState s (some "extend") t).dist = t.dist ++ [s.2.2.2 / 1000])
    ∧ (∀ (s : AcState) (t : Traces),
        (recordState s (some "retract") t).retractionD = t.retractionD ++ [s.2.2.2 / 1000]
        ∧ (recordState s (some "retract") t).retractionA = t.retractionA ++ [s.1]
        ∧ (recordState s (some "retract") t).dist = t.dist ++ [s.2.2.2 / 1000])
    ∧ (∀ (s : AcState) (prev : Option String) (t : Traces),
        prev ≠ some "decel" → prev ≠ some "accel" →
        (recordChange s prev t).dist = t.dist ++ [s.2.2.2 / 1000]
        ∧ (recordChange s prev t).alt = t.alt ++ [s.1])
    ∧ (∀ (s : AcState) (t : Traces),
        (recordChange s (some "decel") t).distDec = t.distDec ++ [s.2.2.2 / 1000]
        ∧ (recordChange s (some "decel") t).altDec = t.altDec ++ [s.1])
    ∧ (∀ (s : AcState) (t : Traces),
        (recordChange s (some "accel") t).distAcc = t.distAcc ++ [s.2.2.2 / 1000]
        ∧ (recordChange s (some "accel") t).altAcc = t.altAcc ++ [s.1])
    ∧ ((runLoop mdp737 piLevelDecel 5 (1000, 70, 0, 2000)
          (piLevelDecel (1000, 70, 0, 2000)) emptyTraces).tr.dist = [2, 1]
       ∧ (runLoop mdp737 piLevelDecel 5 (1000, 70, 0, 2000)
          (piLevelDecel (1000, 70, 0, 2000)) emptyTraces).tr.distDec = [1, 0]) := by
  refine ⟨?_, ?_, ?_, ?_, ?_, ?_, ?_, ?_, ?_⟩
  · intro s a t h1 h2 h3 h4
    obtain ⟨alt, v, c, d⟩ := s
    simp [recordState, if_neg h1, if_neg h2, if_neg h3, if_neg h4]
  · intro s t
    obtain ⟨alt, v, c, d⟩ := s
    simp [recordState]
  · intro s t
    obtain ⟨alt, v, c, d⟩ := s
    simp [recordState]
  · intro s t
    obtain ⟨alt, v, c, d⟩ := s
    simp [recordState]
  · intro s t
    obtain ⟨alt, v, c, d⟩ := s
    simp [recordState]
  · intro s prev t h1 h2
    obtain ⟨alt, v, c, d⟩ := s
    simp [recordChange, if_neg h1, if_neg h2]
  · intro s t
    obtain ⟨alt, v, c, d⟩ := s
    simp [recordChange]
  · intro s t
    obtain ⟨alt, v, c, d⟩ := s
    simp [recordChange]
  · constructor <;>
      norm_num +decide [runLoop, recordState, recordChange, recordFinal, actStr,
        MDPc.succAndProbReward, MDPc.terminal, MDPc.dD, MDPc.dA, MDPc.dS,
        MDPc.getDecel, MDPc.getDescend, piLevelDecel, mdp737, b737, emptyTraces]

/-- Witness for C9's amended theorem: a new action `climb` files the boundary
state in the constant-speed bucket, and a change whose previous action is
`extend` files it in the constant-speed bucket too. -/
theorem bucket_change_amended_witness :
    ((recordState (5, 6, 0, 2000) (some "climb") emptyTraces).dist =
        emptyTraces.dist ++ [(2000 : ℚ) / 1000]
      ∧ (recordState (5, 6, 0, 2000) (some "climb") emptyTraces).alt =
        emptyTraces.alt ++ [(5 : ℚ)])
    ∧ ((recordChange (5, 6, 0, 2000) (some "extend") emptyTraces).dist =
        emptyTraces.dist ++ [(2000 : ℚ) / 1000]
      ∧ (recordChange (5, 6, 0, 2000) (some "extend") emptyTraces).alt =
        emptyTraces.alt ++ [(5 : ℚ)]) :=
  ⟨bucket_change_amended.1 (5, 6, 0, 2000) (some "climb") emptyTraces
      (by decide) (by decide) (by decide) (by decide),
   bucket_change_amended.2.2.2.2.2.1 (5, 6, 0, 2000) (some "extend") emptyTraces
      (by decide) (by decide)⟩
